import Mathlib

/-!
# SentinelPay — Ledger Transaction & Risk Engine: shallow embedding

This file embeds the claim-relevant parts of the SentinelPay source in Lean 4
and settles the specification claims against them.

Embedded source units:
* `src/src/models/accountModel.js` — the `Account` schema (balance validator),
  and the static `updateBalances` (the Balance Ledger).  `updateBalances`
  opens *its own* mongoose session, so each call is all-or-nothing by itself
  and its effects are durable independently of any caller session.
* `src/src/models/transactionModel.js` — the `Transaction` schema (validators,
  the `pre('save')` status-history hook, the `post('save')` balance cascade
  that invokes `updateBalances` on every save and swallows its errors), and
  the static `createReversal`.
* `src/unnamed/part_000` — `TransactionService.processTransaction`,
  `_validateTransaction`, `_validateSourceAccount`, `_validateDestinationAccount`.
* `src/unnamed/part_001` — `FraudDetectionService.analyzeTransaction`,
  `_getMLPrediction`, `createFraudCase` (detection-type selection), and the
  case-creation discipline used by `runDailyScan`.
* `src/src/controllers/fraudController.js` — `updateFraudCase`, `reportFraud`.
* `src/src/controllers/transactionController.js` (wallet section) — `deposit`,
  `withdraw`, `transfer` over `src/src/models/Transaction.js`.

Effectful collaborators (DB aggregates, Redis, the ML model, the clock) are
passed in as explicit parameters or `Except` outcomes, mirroring the awaited
calls in the source.  Monetary amounts are `Int` (the code does plain `+`/`-`
number arithmetic); fraud scores are `ℚ`.
-/

namespace SentinelPay

/-- Account types, `accountModel.js` `accountType` enum. -/
inductive AccType
  | checking | savings | investment | credit
deriving DecidableEq, Repr

/-- Transaction statuses, `transactionModel.js` `status` enum. -/
inductive TxStatus
  | pending | completed | failed | reversed
deriving DecidableEq, Repr

/-- Transaction types, `transactionModel.js` `transactionType` enum. -/
inductive TxType
  | deposit | withdrawal | transfer | payment | refund
deriving DecidableEq, Repr

/-- The claim-relevant account fields of `accountModel.js`:
`balance`, `availableBalance`, `pendingTransactions`, `creditLimit`,
`isActive`, `isFrozen` and the two transaction limits. -/
structure Account where
  accountType : AccType
  balance : Int
  availableBalance : Int
  pendingTransactions : Int
  creditLimit : Int
  isActive : Bool
  isFrozen : Bool
  perTransaction : Int
  daily : Int
deriving DecidableEq, Repr

/-- The durable Accounts collection, keyed by account id. -/
abbrev AccountMap := List (Nat × Account)

/-- `Account.findById`. -/
def findAcc (m : AccountMap) (id : Nat) : Option Account :=
  (m.find? (fun p => p.1 == id)).map (·.2)

/-- Write back a fetched document (only replaces an existing id, which is the
only way `updateBalances` ever saves an account). -/
def setAcc (m : AccountMap) (id : Nat) (a : Account) : AccountMap :=
  m.map (fun p => if p.1 == id then (id, a) else p)

/-- The `balance` path validator of `accountModel.js` (lines 22-31), run on
every `account.save()`: credit accounts need `balance ≥ -creditLimit`, all
others `balance ≥ 0`. -/
def accountValid (a : Account) : Bool :=
  if a.accountType = AccType.credit then a.balance ≥ -a.creditLimit else a.balance ≥ 0

/-- `accountSchema.statics.updateBalances` (`accountModel.js` lines 145-202).
The function opens its own session, so an error (a failing balance validator
on one of the `save`s) aborts the *whole call* and leaves the map unchanged;
a successful call is durably committed regardless of any caller session.
`completed` moves `amount` from source balance to destination balance;
`pending` reserves `amount` on the source; `failed`/`reversed` release the
reservation; missing ids or unknown accounts skip that half silently. -/
def updateBalances (sourceAccountId destinationAccountId : Option Nat)
    (amount : Int) (status : TxStatus) (m : AccountMap) : Except String AccountMap :=
  match status with
  | .completed =>
    let step1 : Except String AccountMap :=
      match sourceAccountId with
      | none => .ok m
      | some sid =>
        match findAcc m sid with
        | none => .ok m
        | some src =>
          let src1 := { src with balance := src.balance - amount }
          let src2 := { src1 with availableBalance := src1.balance - src1.pendingTransactions }
          if accountValid src2 then .ok (setAcc m sid src2)
          else .error "Invalid balance for account type"
    match step1 with
    | .error e => .error e
    | .ok m1 =>
      match destinationAccountId with
      | none => .ok m1
      | some did =>
        match findAcc m1 did with
        | none => .ok m1
        | some dst =>
          let dst1 := { dst with balance := dst.balance + amount }
          let dst2 := { dst1 with availableBalance := dst1.balance - dst1.pendingTransactions }
          if accountValid dst2 then .ok (setAcc m1 did dst2)
          else .error "Invalid balance for account type"
  | .pending =>
    match sourceAccountId with
    | none => .ok m
    | some sid =>
      match findAcc m sid with
      | none => .ok m
      | some src =>
        let src1 := { src with pendingTransactions := src.pendingTransactions + amount }
        let src2 := { src1 with availableBalance := src1.balance - src1.pendingTransactions }
        if accountValid src2 then .ok (setAcc m sid src2)
        else .error "Invalid balance for account type"
  | .failed | .reversed =>
    match sourceAccountId with
    | none => .ok m
    | some sid =>
      match findAcc m sid with
      | none => .ok m
      | some src =>
        let src1 := { src with pendingTransactions := src.pendingTransactions - amount }
        let src2 := { src1 with availableBalance := src1.balance - src1.pendingTransactions }
        if accountValid src2 then .ok (setAcc m sid src2)
        else .error "Invalid balance for account type"

/-- The claim-relevant transaction fields of `transactionModel.js`. -/
structure Tx where
  id : Nat
  sourceAccountId : Option Nat
  destinationAccountId : Option Nat
  amount : Int
  transactionType : TxType
  status : TxStatus
  statusHistory : List TxStatus
  fraudScore : ℚ
  fraudReviewed : Bool
  relatedTransactions : List Nat
deriving DecidableEq, Repr

/-- The schema validators of `transactionModel.js` run on every save:
`sourceAccountId` required unless the type is `deposit` (lines 10-16),
`destinationAccountId` required for `transfer` (lines 17-23),
`amount > 0` (lines 24-33), `fraudScore` within `[0, 100]` (lines 79-84). -/
def txValid (t : Tx) : Bool :=
  (t.sourceAccountId.isSome || t.transactionType == TxType.deposit) &&
  (t.destinationAccountId.isSome || t.transactionType != TxType.transfer) &&
  (t.amount > 0) && decide ((0 : ℚ) ≤ t.fraudScore) && decide (t.fraudScore ≤ 100)

/-- `transaction.save(...)`: runs the validators, the `pre('save')` hook
(appends the current status to `statusHistory` when the document is new or
its `status` path was modified, lines 125-133), and the `post('save')` hook
(lines 136-157) which calls `Account.updateBalances` for every status in the
enum and *swallows* any error it throws (`catch` + `console.error`).
The account effects commit in `updateBalances`' own session, hence are kept
even if the caller's session later aborts. -/
def saveTx (t : Tx) (isNew statusModified : Bool) (m : AccountMap) :
    Except String (Tx × AccountMap) :=
  if txValid t then
    let t1 := if isNew || statusModified
      then { t with statusHistory := t.statusHistory ++ [t.status] } else t
    let m1 :=
      match updateBalances t1.sourceAccountId t1.destinationAccountId t1.amount t1.status m with
      | .ok m' => m'
      | .error _ => m
    .ok (t1, m1)
  else .error "Transaction validation failed"

/-- The validation-error taxonomy of `TransactionService` (`part_000`): one
constructor per distinct `AppError` thrown during validation. -/
inductive VErr
  | missingAccounts        -- per-type required-account checks
  | unsupportedType
  | sourceNotFound | sourceInactive | sourceFrozen
  | insufficientFunds | creditLimitExceeded
  | perTransactionLimit | dailyLimit
  | destNotFound | destInactive | destFrozen
deriving DecidableEq, Repr

/-- `TransactionService._validateSourceAccount` (`part_000` lines 289-347).
`dailyTotal` is the aggregate of today's completed source-transactions that
the code reads from the Transactions collection before the final check. -/
def validateSourceAccount (acct : Option Account) (amount : Int) (dailyTotal : Int) :
    Except VErr Account :=
  match acct with
  | none => .error .sourceNotFound
  | some account =>
    if !account.isActive then .error .sourceInactive
    else if account.isFrozen then .error .sourceFrozen
    else if account.accountType != .credit && account.availableBalance < amount then
      .error .insufficientFunds
    else if account.accountType == .credit && account.balance - amount < -account.creditLimit then
      .error .creditLimitExceeded
    else if amount > account.perTransaction then .error .perTransactionLimit
    else if dailyTotal + amount > account.daily then .error .dailyLimit
    else .ok account

/-- `TransactionService._validateDestinationAccount` (`part_000` lines 353-369). -/
def validateDestinationAccount (acct : Option Account) : Except VErr Account :=
  match acct with
  | none => .error .destNotFound
  | some account =>
    if !account.isActive then .error .destInactive
    else if account.isFrozen then .error .destFrozen
    else .ok account

/-- A transaction request as received by `processTransaction`. -/
structure TxRequest where
  sourceAccountId : Option Nat
  destinationAccountId : Option Nat
  amount : Int
  transactionType : TxType
deriving DecidableEq, Repr

/-- `TransactionService._validateTransaction` (`part_000` lines 248-283):
per-type required accounts, then source/destination checks. -/
def validateTransaction (req : TxRequest) (m : AccountMap) (dailyTotal : Int) :
    Except VErr Unit :=
  match req.transactionType with
  | .transfer =>
    match req.sourceAccountId, req.destinationAccountId with
    | some sid, some did => do
      let _ ← validateSourceAccount (findAcc m sid) req.amount dailyTotal
      let _ ← validateDestinationAccount (findAcc m did)
      pure ()
    | _, _ => .error .missingAccounts
  | .withdrawal =>
    match req.sourceAccountId with
    | some sid => do
      let _ ← validateSourceAccount (findAcc m sid) req.amount dailyTotal
      pure ()
    | none => .error .missingAccounts
  | .deposit =>
    match req.destinationAccountId with
    | some did => do
      let _ ← validateDestinationAccount (findAcc m did)
      pure ()
    | none => .error .missingAccounts
  | .payment =>
    match req.sourceAccountId with
    | some sid => do
      let _ ← validateSourceAccount (findAcc m sid) req.amount dailyTotal
      pure ()
    | none => .error .missingAccounts
  | .refund => .error .unsupportedType

deriving instance DecidableEq for Except

/-- Outcome of one `processTransaction` call.  `result` is what the caller
sees (the outer unit of work: on error the transaction record is rolled
back); `accounts` is the durable Accounts collection afterwards — account
mutations ride `updateBalances`' *own* sessions and therefore survive an
abort of the outer session. -/
structure ProcOutcome where
  result : Except String (Tx × TxStatus)
  accounts : AccountMap
deriving DecidableEq, Repr

/-- The messages of the validation `AppError`s of `part_000`. -/
def VErr.message : VErr → String
  | .missingAccounts => "Required account(s) missing for this transaction type"
  | .unsupportedType => "Unsupported transaction type"
  | .sourceNotFound => "Source account not found"
  | .sourceInactive => "Source account is inactive"
  | .sourceFrozen => "Source account is frozen"
  | .insufficientFunds => "Insufficient funds"
  | .creditLimitExceeded => "Transaction exceeds credit limit"
  | .perTransactionLimit => "Transaction amount exceeds per-transaction limit"
  | .dailyLimit => "Transaction would exceed daily limit"
  | .destNotFound => "Destination account not found"
  | .destInactive => "Destination account is inactive"
  | .destFrozen => "Destination account is frozen"

/-- `TransactionService.processTransaction` (`part_000` lines 18-138).

* `score` is the oracle for `fraudDetectionService.analyzeTransaction`
  (which never throws, see `analyzeTransaction` below); `threshold` is
  `FRAUD_ALERT_THRESHOLD` (default 0.75); `dailyTotal` the daily aggregate;
  `txId` the id the new record receives.
* Step order as in the source: validate → save pending record (cascade fires)
  → score → either the high-risk branch (history entry, `createFraudCase`
  which saves the transaction again — firing the cascade again — then the
  final save, return `pending`) or the completed branch (explicit
  `Account.updateBalances(..., 'completed')`, set status, final save —
  firing the cascade's *second* `completed` application — return
  `completed`).
* On an error the outer session aborts: the record is discarded, but the
  account mutations already committed by `updateBalances` remain in
  `accounts`. -/
def processTransaction (req : TxRequest) (score threshold : ℚ) (dailyTotal : Int)
    (txId : Nat) (m0 : AccountMap) : ProcOutcome :=
  match validateTransaction req m0 dailyTotal with
  | .error e => { result := .error e.message, accounts := m0 }
  | .ok _ =>
    let t0 : Tx := {
      id := txId
      sourceAccountId := req.sourceAccountId
      destinationAccountId := req.destinationAccountId
      amount := req.amount
      transactionType := req.transactionType
      status := .pending
      statusHistory := []
      fraudScore := 0
      fraudReviewed := false
      relatedTransactions := [] }
    match saveTx t0 true false m0 with
    | .error e => { result := .error e, accounts := m0 }
    | .ok (t1, m1) =>
      let t2 := { t1 with fraudScore := score }
      if score > threshold then
        -- high-risk branch: manual 'pending' history entry, then
        -- createFraudCase saves the transaction (cascade #2), then the
        -- final save({session}) (cascade #3)
        let t3 := { t2 with statusHistory := t2.statusHistory ++ [TxStatus.pending] }
        let afterCase :=
          match saveTx { t3 with fraudReviewed := true } false false m1 with
          | .ok p => p
          | .error _ => ({ t3 with fraudReviewed := true }, m1)
        match saveTx afterCase.1 false false afterCase.2 with
        | .error e => { result := .error e, accounts := afterCase.2 }
        | .ok (t5, m3) => { result := .ok (t5, .pending), accounts := m3 }
      else
        -- completed branch: explicit ledger call per type, then final save
        let ledger : Except String AccountMap :=
          match req.transactionType with
          | .transfer =>
            updateBalances req.sourceAccountId req.destinationAccountId req.amount .completed m1
          | .withdrawal => updateBalances req.sourceAccountId none req.amount .completed m1
          | .deposit => updateBalances none req.destinationAccountId req.amount .completed m1
          | .payment =>
            updateBalances req.sourceAccountId req.destinationAccountId req.amount .completed m1
          | .refund => .ok m1   -- unreachable: validation rejects refunds
        match ledger with
        | .error e => { result := .error e, accounts := m1 }
        | .ok m2 =>
          let t3 := { t2 with status := .completed }
          match saveTx t3 false true m2 with
          | .error e => { result := .error e, accounts := m2 }
          | .ok (t4, m3) => { result := .ok (t4, .completed), accounts := m3 }

/-- A durable state: Accounts plus the Transactions collection. -/
structure DB where
  accounts : AccountMap
  txs : List (Nat × Tx)
deriving DecidableEq, Repr

/-- Replace a transaction record by id. -/
def setTx (txs : List (Nat × Tx)) (id : Nat) (t : Tx) : List (Nat × Tx) :=
  txs.map (fun p => if p.1 == id then (id, t) else p)

/-- `transactionSchema.statics.createReversal` (`transactionModel.js` lines
160-188).  No session is opened here: the two `save`s are independent.  The
reversal document is constructed *without* a `status`, so the schema default
`'pending'` applies.  Saving the original (now `reversed`) fires the cascade
with status `reversed`; saving the reversal fires it with `pending`. -/
def createReversal (db : DB) (originalId : Nat) (newId : Nat) :
    Except String Tx × DB :=
  match (db.txs.find? (fun p => p.1 == originalId)).map (·.2) with
  | none => (.error "Original transaction not found", db)
  | some orig =>
    if orig.status != .completed then
      (.error "Only completed transactions can be reversed", db)
    else
      let rev : Tx := {
        id := newId
        sourceAccountId := orig.destinationAccountId
        destinationAccountId := orig.sourceAccountId
        amount := orig.amount
        transactionType := .refund
        status := .pending          -- schema default: never set by the code
        statusHistory := []
        fraudScore := 0
        fraudReviewed := false
        relatedTransactions := [originalId] }
      let orig1 := { orig with
        status := .reversed
        relatedTransactions := orig.relatedTransactions ++ [newId] }
      match saveTx orig1 false true db.accounts with
      | .error e => (.error e, db)
      | .ok (orig2, m1) =>
        let db1 : DB := { accounts := m1, txs := setTx db.txs originalId orig2 }
        match saveTx rev true false m1 with
        | .error e => (.error e, db1)
        | .ok (rev2, m2) =>
          (.ok rev2, { accounts := m2, txs := db1.txs ++ [(newId, rev2)] })

/-! ### Rational constants

The decimal constants of the source, written as reduced `num`/`den` literals
so that concrete runs reduce under `decide`; the `r*_eq` lemmas below tie
each to its decimal notation. -/

/-- 0.15 (time-of-day weight). -/
def r015 : ℚ := ⟨3, 20, by decide, by decide⟩

/-- 0.2 (location weight; ML fallback score). -/
def r02 : ℚ := ⟨1, 5, by decide, by decide⟩

/-- 0.25 (failed-attempts weight). -/
def r025 : ℚ := ⟨1, 4, by decide, by decide⟩

/-- 0.3 (unusual-amount weight). -/
def r03 : ℚ := ⟨3, 10, by decide, by decide⟩

/-- 0.35 (suspicious-pattern weight). -/
def r035 : ℚ := ⟨7, 20, by decide, by decide⟩

/-- 0.4 (basic-score weight in the combined score). -/
def r04 : ℚ := ⟨2, 5, by decide, by decide⟩

/-- 0.5 (analysis fallback score). -/
def r05 : ℚ := ⟨1, 2, by decide, by decide⟩

/-- 0.6 (ML weight in the combined score). -/
def r06 : ℚ := ⟨3, 5, by decide, by decide⟩

/-- 0.7 (wallet flagging threshold). -/
def r07 : ℚ := ⟨7, 10, by decide, by decide⟩

/-- 0.75 (default FRAUD_ALERT_THRESHOLD). -/
def r075 : ℚ := ⟨3, 4, by decide, by decide⟩

/-- 0.9 (a concrete high fraud score used in scenarios). -/
def r09 : ℚ := ⟨9, 10, by decide, by decide⟩

/-! ### C5 — source-account validation order -/

/-- Error projection of a validation result. -/
def errOf : Except VErr Account → Option VErr
  | .error e => some e
  | .ok _ => none

/-- Spec §4.1, written from the spec's words: "Source account checks, in
order, first failure wins: account exists → active → not frozen →
(non-credit: availableBalance ≥ amount) / (credit: balance − amount ≥
−creditLimit) → amount ≤ perTransactionLimit → (sum of completed
source-transactions today) + amount ≤ dailyLimit".  Returns the first
failing check, `none` when all pass. -/
def specSourceFirstFailure (acct : Option Account) (amount dailyTotal : Int) : Option VErr :=
  match acct with
  | none => some .sourceNotFound
  | some a =>
    if ¬ (a.isActive = true) then some .sourceInactive
    else if ¬ (a.isFrozen = false) then some .sourceFrozen
    else if ¬ (if a.accountType = .credit then a.balance - amount ≥ -a.creditLimit
               else a.availableBalance ≥ amount) then
      some (if a.accountType = .credit then .creditLimitExceeded else .insufficientFunds)
    else if ¬ (amount ≤ a.perTransaction) then some .perTransactionLimit
    else if ¬ (dailyTotal + amount ≤ a.daily) then some .dailyLimit
    else none

/-- The daily-limit scenario account of §8: `dailyLimit = 1000`, ample funds. -/
def dailyAcct : Account :=
  { accountType := .checking, balance := 5000, availableBalance := 5000,
    pendingTransactions := 0, creditLimit := 0, isActive := true, isFrozen := false,
    perTransaction := 5000, daily := 1000 }

/-- The credit-account scenario of §8: `creditLimit = 500`, `balance = -100`. -/
def creditAcct : Account :=
  { accountType := .credit, balance := -100, availableBalance := -100,
    pendingTransactions := 0, creditLimit := 500, isActive := true, isFrozen := false,
    perTransaction := 5000, daily := 10000 }

/-! ### C1 / C3 — coordinator scenarios -/

/-- A plain active checking account: balance 1000, nothing pending. -/
def demoChecking : Account :=
  { accountType := .checking, balance := 1000, availableBalance := 1000,
    pendingTransactions := 0, creditLimit := 0, isActive := true, isFrozen := false,
    perTransaction := 5000, daily := 10000 }

def demoMap : AccountMap := [(1, demoChecking)]

/-- A withdrawal of 100 from that account. -/
def demoWithdrawal : TxRequest :=
  { sourceAccountId := some 1, destinationAccountId := none, amount := 100,
    transactionType := .withdrawal }

/-! ### C2 — reversal of a completed transfer -/

/-- Account X after some history: balance 900. -/
def xAcct : Account :=
  { accountType := .checking, balance := 900, availableBalance := 900,
    pendingTransactions := 0, creditLimit := 0, isActive := true, isFrozen := false,
    perTransaction := 5000, daily := 10000 }

/-- Account Y: balance 600. -/
def yAcct : Account :=
  { accountType := .checking, balance := 600, availableBalance := 600,
    pendingTransactions := 0, creditLimit := 0, isActive := true, isFrozen := false,
    perTransaction := 5000, daily := 10000 }

/-- A completed transfer of 100 from X (id 1) to Y (id 2). -/
def origTransfer : Tx :=
  { id := 10, sourceAccountId := some 1, destinationAccountId := some 2,
    amount := 100, transactionType := .transfer, status := .completed,
    statusHistory := [.pending, .completed], fraudScore := 0,
    fraudReviewed := false, relatedTransactions := [] }

def reversalDB : DB := { accounts := [(1, xAcct), (2, yAcct)], txs := [(10, origTransfer)] }

/-! ### C3 — atomicity of the unit of work -/

/-- Fresh account X for the atomicity scenario. -/
def c3X : Account :=
  { accountType := .checking, balance := 1000, availableBalance := 1000,
    pendingTransactions := 0, creditLimit := 0, isActive := true, isFrozen := false,
    perTransaction := 5000, daily := 10000 }

/-- Fresh account Y. -/
def c3Y : Account :=
  { accountType := .checking, balance := 500, availableBalance := 500,
    pendingTransactions := 0, creditLimit := 0, isActive := true, isFrozen := false,
    perTransaction := 5000, daily := 10000 }

/-- A completed transfer of 60 from X to Y, already settled. -/
def c3orig : Tx :=
  { id := 10, sourceAccountId := some 1, destinationAccountId := some 2,
    amount := 60, transactionType := .transfer, status := .completed,
    statusHistory := [.pending, .completed], fraudScore := 0,
    fraudReviewed := false, relatedTransactions := [] }

/-- The state reached from a clean state by reversing that transfer (the
reversal release drives X's `pendingTransactions` to −60, hence
`availableBalance` 1060 > `balance` 1000). -/
def c3db1 : DB :=
  (createReversal { accounts := [(1, c3X), (2, c3Y)], txs := [(10, c3orig)] } 10 11).2

def c3req : TxRequest :=
  { sourceAccountId := some 1, destinationAccountId := none, amount := 1030,
    transactionType := .withdrawal }

def c3out : ProcOutcome := processTransaction c3req 0 r075 0 12 c3db1.accounts

/-! ### C4 — fraud-case resolution -/

/-- Fraud-case statuses, `fraudCaseModel.js` `status` enum. -/
inductive CaseStatus
  | statusOpen | investigating | resolvedGenuine | resolvedFraud | closed
deriving DecidableEq, Repr

/-- Fraud-case action types, `fraudCaseModel.js` `actions.actionType` enum. -/
inductive ActionType
  | accountFreeze | transactionReversal | customerContact | securityReset | other
deriving DecidableEq, Repr

/-- The claim-relevant fraud-case fields of `fraudCaseModel.js`. -/
structure FraudCaseR where
  transactionId : Nat
  accountId : Option Nat
  status : CaseStatus
  actions : List ActionType
  resolutionDate : Option Nat
deriving DecidableEq, Repr

/-- `updateFraudCase` (`fraudController.js` lines 119-184), restricted to a
`status` patch (the `assignedTo`/`resolutionNotes` updates touch neither the
resolution date, the actions, nor the account).  `now` is `Date.now()`.
The source does, in order:
1. `fraudCase.status = status` (mutates first);
2. if the new status is `resolved-fraud` and the case has an account:
   freeze it and push an `account-freeze` action;
3. stamp `resolutionDate` only when the patch is terminal AND
   `fraudCase.status !== status` — which reads the already-mutated field. -/
def updateFraudCase (patch : Option CaseStatus) (now : Nat) (fc : FraudCaseR)
    (m : AccountMap) : FraudCaseR × AccountMap :=
  match patch with
  | none => (fc, m)
  | some s =>
    let fc1 := { fc with status := s }
    let frozen :=
      if s = .resolvedFraud then
        match fc1.accountId with
        | some aid =>
          match findAcc m aid with
          | some a =>
            ({ fc1 with actions := fc1.actions ++ [ActionType.accountFreeze] },
             setAcc m aid { a with isFrozen := true })
          | none => (fc1, m)
        | none => (fc1, m)
      else (fc1, m)
    let fc2 := frozen.1
    let fc3 :=
      if (s = .resolvedGenuine ∨ s = .resolvedFraud ∨ s = .closed) ∧ fc2.status ≠ s then
        { fc2 with resolutionDate := some now }
      else fc2
    (fc3, frozen.2)

/-- An open fraud case on account 1. -/
def openCase : FraudCaseR :=
  { transactionId := 10, accountId := some 1, status := .statusOpen,
    actions := [], resolutionDate := none }

/-! ### C6-C8 — fraud detection service -/

/-- The rule-indicator flags of `_checkBasicFraudIndicators` (`part_001`
lines 203-261): each is set when the corresponding awaited check returned
true. -/
structure Indicators where
  unusualAmount : Bool
  locationChange : Bool
  unusualTime : Bool
  multipleFailures : Bool
  suspiciousPattern : Bool
deriving DecidableEq, Repr

/-- The weighted score accumulation of `_checkBasicFraudIndicators`
(`part_001` lines 203-252): `+0.3` unusual amount, `+0.2` location change,
`+0.15` unusual time, `+0.25` multiple failures, `+0.35` suspicious pattern,
capped at 1 (`Math.min(score, 1)`). -/
def basicIndicatorScore (i : Indicators) : ℚ :=
  min ((if i.unusualAmount then r03 else 0) + (if i.locationChange then r02 else 0) +
       (if i.unusualTime then r015 else 0) + (if i.multipleFailures then r025 else 0) +
       (if i.suspiciousPattern then r035 else 0)) 1

/-- The object returned by `_checkBasicFraudIndicators`. -/
structure BasicResult where
  indicators : Indicators
  score : ℚ
deriving DecidableEq, Repr

/-- The result of `analyzeTransaction`: either the full result built in the
`try` block, or the fallback object built in the `catch` handler. -/
inductive AnalysisResult
  | full (score mlScore basicScore : ℚ) (indicators : Indicators) (isHighRisk : Bool)
  | fallback (score : ℚ) (errorMsg : String)
deriving DecidableEq, Repr

/-- The `score` field of either result shape. -/
def AnalysisResult.score : AnalysisResult → ℚ
  | .full s _ _ _ _ => s
  | .fallback s _ => s

/-- Whether the result came from the `catch` handler. -/
def AnalysisResult.isFallback : AnalysisResult → Bool
  | .full _ _ _ _ _ => false
  | .fallback _ _ => true

/-- `FraudDetectionService.analyzeTransaction` (`part_001` lines 16-55).
The three awaited steps are parameters carrying either their value or the
exception they threw: `basic` for `_checkBasicFraudIndicators`, `ml` for
`_getMLPrediction`, `cacheSet` for the `redis.set` of the result.  The `try`
block combines `basicScore × 0.4 + mlScore × 0.6` and compares it with the
alert threshold; *any* exception lands in the `catch`, which returns a result
object with the fixed score 0.5 — it never rethrows, so the caller always
receives a result. -/
def analyzeTransaction (basic : Except String BasicResult) (ml : Except String ℚ)
    (cacheSet : Except String Unit) (threshold : ℚ) : AnalysisResult :=
  match basic with
  | .error e => .fallback r05 e
  | .ok b =>
    match ml with
    | .error e => .fallback r05 e
    | .ok mlScore =>
      let combinedScore := b.score * r04 + mlScore * r06
      match cacheSet with
      | .error e => .fallback r05 e
      | .ok _ =>
        .full combinedScore mlScore b.score b.indicators (decide (combinedScore > threshold))

/-- JavaScript's `toLowerCase`, modelled character-wise (ASCII case map) so
that concrete strings evaluate under `decide` (`String.toLower` itself is
defined by well-founded recursion on positions, which the kernel cannot
reduce). -/
def jsToLowerCase (s : String) : String := ⟨s.data.map Char.toLower⟩

/-- `FraudDetectionService._getMLPrediction` (`part_001` lines 416-436).
`enabled` is `process.env.FRAUD_DETECTION_ENABLED` (absent, or any string);
`predict` is the outcome of feature preparation plus `tfModel.predict`.  If
the flag is absent or not `"true"` (case-insensitively) the function returns
0; otherwise it returns the prediction, or 0.2 from its `catch` when the
awaited call throws (provider failure or timeout). -/
def getMLPrediction (enabled : Option String) (predict : Except String ℚ) : ℚ :=
  match enabled with
  | none => 0
  | some s =>
    if jsToLowerCase s ≠ "true" then 0
    else
      match predict with
      | .ok p => p
      | .error _ => r02

/-- The detection types assignable by escalation (`fraudCaseModel.js` enum,
restricted to the ones `createFraudCase` can pick). -/
inductive DetectionType
  | unusualAmount | unusualLocation | unusualTime | multipleFailures
  | suspiciousPattern | mlDetection
deriving DecidableEq, Repr

/-- The detection-type selection of `createFraudCase` (`part_001` lines
122-137): starts from `ml-detection` and walks a fixed `if`/`else if` chain
over the indicator flags — amount, then location, then time, then failures,
then pattern.  `none` models a `fraudResult` without an `indicators` object
(e.g. the fallback result). -/
def determineDetectionType (ind : Option Indicators) : DetectionType :=
  match ind with
  | none => .mlDetection
  | some i =>
    if i.unusualAmount then .unusualAmount
    else if i.locationChange then .unusualLocation
    else if i.unusualTime then .unusualTime
    else if i.multipleFailures then .multipleFailures
    else if i.suspiciousPattern then .suspiciousPattern
    else .mlDetection

/-- The weight each indicator contributes in `_checkBasicFraudIndicators`
(cf. `basicIndicatorScore`); `ml-detection` carries no rule weight. -/
def indicatorWeight : DetectionType → ℚ
  | .unusualAmount => r03
  | .unusualLocation => r02
  | .unusualTime => r015
  | .multipleFailures => r025
  | .suspiciousPattern => r035
  | .mlDetection => 0

/-- The active indicators, listed in the claim's tie-break order
amount > location > time > failures > pattern. -/
def activeIndicators (i : Indicators) : List DetectionType :=
  (if i.unusualAmount then [DetectionType.unusualAmount] else []) ++
  (if i.locationChange then [DetectionType.unusualLocation] else []) ++
  (if i.unusualTime then [DetectionType.unusualTime] else []) ++
  (if i.multipleFailures then [DetectionType.multipleFailures] else []) ++
  (if i.suspiciousPattern then [DetectionType.suspiciousPattern] else [])

/-- Spec §4.4, written from the spec's words: the single highest-weighted
active indicator, earlier entries of the tie-break order winning ties, and
`ml-detection` when no rule indicator is active. -/
def specHighestWeighted (ind : Option Indicators) : DetectionType :=
  match ind with
  | none => .mlDetection
  | some i =>
    match (activeIndicators i).foldl
      (fun best t =>
        match best with
        | none => some t
        | some b => if indicatorWeight t > indicatorWeight b then some t else some b)
      none with
    | some b => b
    | none => .mlDetection

/-- The first active indicator in the fixed order (the amended C8 reading),
`ml-detection` otherwise. -/
def specFirstActive (ind : Option Indicators) : DetectionType :=
  match ind with
  | none => .mlDetection
  | some i =>
    match activeIndicators i with
    | t :: _ => t
    | [] => .mlDetection

/-- Failures (0.25) and pattern (0.35) both active: the highest-weighted
active indicator is the pattern, but the code's chain reaches failures
first. -/
def tieIndicators : Indicators :=
  { unusualAmount := false, locationChange := false, unusualTime := false,
    multipleFailures := true, suspiciousPattern := true }

/-! ### C9 — case-per-transaction discipline -/

/-- The transaction field that drives case creation. -/
structure TxnRec where
  fraudReviewed : Bool
deriving DecidableEq, Repr

/-- A fraud case as it matters to the per-transaction discipline. -/
structure CaseRec where
  transactionId : Nat
  status : CaseStatus
deriving DecidableEq, Repr

/-- The durable fraud state: Transactions and FraudCases collections. -/
structure FState where
  txns : List (Nat × TxnRec)
  cases : List CaseRec
deriving DecidableEq, Repr

/-- `Transaction.findById` over the id-keyed list. -/
def lookupT : List (Nat × TxnRec) → Nat → Option TxnRec
  | [], _ => none
  | (i, t) :: rest, tid => if i = tid then some t else lookupT rest tid

/-- `transaction.fraudReviewed = true; await transaction.save()` (the tail of
`createFraudCase`, `part_001` lines 179-180). -/
def markReviewed : List (Nat × TxnRec) → Nat → List (Nat × TxnRec)
  | [], _ => []
  | (i, t) :: rest, tid =>
    (i, if i = tid then { t with fraudReviewed := true } else t) :: markReviewed rest tid

/-- `FraudCase.findOne({ transactionId })` followed by
`fraudCase.status = 'investigating'; await fraudCase.save()`
(`fraudController.js` lines 287-309): only the first matching case is
updated. -/
def setInvestigatingFirst : List CaseRec → Nat → List CaseRec
  | [], _ => []
  | c :: rest, tid =>
    if c.transactionId = tid then { c with status := .investigating } :: rest
    else c :: setInvestigatingFirst rest tid

/-- The persistence effect of one `createFraudCase` call (`part_001` lines
120-193) on the two collections.  The body performs two *independent*,
sessionless awaited writes inside one `try`: `fraudCase.save()` first, then
`transaction.fraudReviewed = true; await transaction.save()`; the `catch`
swallows any error and returns `null`.  Consequently:
* a failure of the *case* save persists nothing (the throw skips the second
  save) — that outcome is the identity on the state and needs no transition;
* a failure of the *transaction* save after a successful case save leaves
  the `open` case persisted while `fraudReviewed` stays `false`.
`reviewSaveOk` is the outcome of that second save. -/
def doCreateFraudCase (tid : Nat) (reviewSaveOk : Bool) (s : FState) : FState :=
  { txns := if reviewSaveOk then markReviewed s.txns tid else s.txns,
    cases := s.cases ++ [{ transactionId := tid, status := .statusOpen }] }

/-- The case-relevant operations: a low-risk submission (the `completed` path
of `processTransaction` creates a transaction with `fraudReviewed: false` and
no case), high-risk escalation of a *new* transaction inside
`processTransaction` (`part_000` lines 64-87), one daily-scan step of
`runDailyScan` (`part_001` lines 61-112 — the scan query selects only
`fraudReviewed: false` transactions from the window; `highRisk` is the
scoring outcome for this transaction), and a user fraud report
(`fraudController.js` lines 257-364).  The `reviewSaveOk` oracles carry the
outcome of the awaited `transaction.save()` that should persist
`fraudReviewed = true` (cf. `doCreateFraudCase`). -/
inductive FOp
  | submitLowRisk (tid : Nat)
  | submitHighRisk (tid : Nat)
  | dailyScanStep (tid : Nat) (highRisk : Bool) (reviewSaveOk : Bool)
  | reportFraud (tid : Nat) (reviewSaveOk : Bool)
deriving DecidableEq, Repr

/-- One operation against the fraud state, mirroring the source's control
flow.  `submitLowRisk`/`submitHighRisk` insert the freshly created
transaction (no-op on a stale id — new records always get fresh object ids);
the high-risk branch escalates it.  `submitHighRisk` carries no
`reviewSaveOk` oracle: in the submit path the in-memory flag is set before
the inner save, and the subsequent `transaction.save({ session })` of
`processTransaction` (`part_000` line 74) persists `fraudReviewed = true`
regardless of the inner save's outcome; and if *that* final save or the
commit fails, the outer session discards the transaction record itself, so
the surviving sessionless case is an orphan whose object id is never reused
and can never pair with a live transaction.  `dailyScanStep` skips missing
or already-reviewed transactions and escalates a high-risk one via
`createFraudCase` — here no later save repairs a failed `fraudReviewed`
write, hence the oracle.  `reportFraud` turns the existing case to
`investigating` when `FraudCase.findOne({transactionId})` finds one, and
only otherwise creates a new `open` case and then sets `fraudReviewed`
(`fraudController.js` lines 345-347; a failure of that save reaches the
handler's catch after the case save already happened, so the oracle applies
as in the scan). -/
def stepOp (s : FState) : FOp → FState
  | .submitLowRisk tid =>
    if (lookupT s.txns tid).isSome then s
    else { s with txns := s.txns ++ [(tid, { fraudReviewed := false })] }
  | .submitHighRisk tid =>
    if (lookupT s.txns tid).isSome then s
    else doCreateFraudCase tid true
      { s with txns := s.txns ++ [(tid, { fraudReviewed := false })] }
  | .dailyScanStep tid high reviewSaveOk =>
    match lookupT s.txns tid with
    | none => s
    | some t =>
      if t.fraudReviewed then s
      else if high then doCreateFraudCase tid reviewSaveOk s else s
  | .reportFraud tid reviewSaveOk =>
    match lookupT s.txns tid with
    | none => s
    | some _ =>
      match s.cases.find? (fun c => c.transactionId == tid) with
      | some _ => { s with cases := setInvestigatingFirst s.cases tid }
      | none => doCreateFraudCase tid reviewSaveOk s

/-- Run a sequence of operations from the empty initial state. -/
def runOps (ops : List FOp) : FState :=
  ops.foldl stepOp { txns := [], cases := [] }

/-- Whether the operation's `fraudReviewed` write succeeded (vacuously true
for the operations that carry no such oracle). -/
def opWritesSucceed : FOp → Bool
  | .dailyScanStep _ _ ok => ok
  | .reportFraud _ ok => ok
  | _ => true

/-- The duplicating trace: a normally completed transaction (id 5) is
scanned while high-risk; the case save succeeds but the `fraudReviewed` save
fails and is swallowed, so the transaction stays `fraudReviewed: false` with
one `open` case; a second scan step within the 24-hour window re-selects it
and `createFraudCase` — which never checks for an existing case — creates a
second `open` case. -/
def c9DuplicateOps : List FOp :=
  [.submitLowRisk 5, .dailyScanStep 5 true false, .dailyScanStep 5 true true]

/-- The number of cases (any status) recorded for a transaction. -/
def countCases (cs : List CaseRec) (tid : Nat) : Nat :=
  (cs.filter (fun c => c.transactionId == tid)).length

/-- The number of `open`/`investigating` cases recorded for a transaction. -/
def countOpenCases (cs : List CaseRec) (tid : Nat) : Nat :=
  (cs.filter (fun c => c.transactionId == tid &&
    (c.status == CaseStatus.statusOpen || c.status == CaseStatus.investigating))).length

/-- The inductive invariant: each transaction has at most one case, and a
transaction that has a case is marked `fraudReviewed`. -/
def GoodState (s : FState) : Prop :=
  ∀ tid, countCases s.cases tid ≤ 1 ∧
    (1 ≤ countCases s.cases tid →
      ∃ t, lookupT s.txns tid = some t ∧ t.fraudReviewed = true)

/-! ### C10 — wallet controller -/

/-- Wallet transaction types (`src/src/models/Transaction.js` enum). -/
inductive WType
  | deposit | withdraw | transfer
deriving DecidableEq, Repr

/-- Wallet transaction statuses; the schema default is `completed`. -/
inductive WStatus
  | pending | completed | failed | flagged
deriving DecidableEq, Repr

/-- The claim-relevant wallet transaction fields. -/
structure WTx where
  wtype : WType
  amount : Int
  status : WStatus
  fraudScore : ℚ
deriving DecidableEq, Repr

/-- Wallet `deposit` (`transactionController.js` wallet section, lines
377-420): reject non-positive amounts, increment `user.walletBalance` and
save it *before* fraud scoring, compute `detectFraud` (the score is the
`fraudScore` oracle parameter), set the transaction status to `flagged`
when the score exceeds 0.7 — without reverting the balance — save, commit,
and respond with success carrying the new balance. -/
def walletDeposit (balance : Int) (amount : Int) (fraudScore : ℚ) :
    Except String (Int × WTx) :=
  if amount ≤ 0 then .error "Amount must be positive"
  else
    let balance1 := balance + amount
    .ok (balance1,
      { wtype := .deposit, amount := amount,
        status := if fraudScore > r07 then .flagged else .completed,
        fraudScore := fraudScore })

/-- Wallet `withdraw` (lines 422-470): as `deposit` but requires funds and
decrements the balance before scoring. -/
def walletWithdraw (balance : Int) (amount : Int) (fraudScore : ℚ) :
    Except String (Int × WTx) :=
  if amount ≤ 0 then .error "Amount must be positive"
  else if balance < amount then .error "Insufficient funds"
  else
    let balance1 := balance - amount
    .ok (balance1,
      { wtype := .withdraw, amount := amount,
        status := if fraudScore > r07 then .flagged else .completed,
        fraudScore := fraudScore })

/-- Wallet `transfer` (lines 472-529): requires a recipient and funds, moves
the amount between the two wallet balances before scoring, then flags the
transaction when the score exceeds 0.7 and still commits and reports
success. -/
def walletTransfer (senderBalance : Int) (recipient : Option Int) (amount : Int)
    (fraudScore : ℚ) : Except String (Int × Int × WTx) :=
  if amount ≤ 0 then .error "Amount must be positive"
  else
    match recipient with
    | none => .error "Recipient not found"
    | some recipientBalance =>
      if senderBalance < amount then .error "Insufficient funds"
      else
        .ok (senderBalance - amount, recipientBalance + amount,
          { wtype := .transfer, amount := amount,
            status := if fraudScore > r07 then .flagged else .completed,
            fraudScore := fraudScore })

/-! ## Theorems -/

theorem r015_eq : r015 = 0.15 := by rw [r015, Rat.mk'_eq_divInt, Rat.divInt_eq_div]; norm_num

theorem r02_eq : r02 = 0.2 := by rw [r02, Rat.mk'_eq_divInt, Rat.divInt_eq_div]; norm_num

theorem r025_eq : r025 = 0.25 := by rw [r025, Rat.mk'_eq_divInt, Rat.divInt_eq_div]; norm_num

theorem r03_eq : r03 = 0.3 := by rw [r03, Rat.mk'_eq_divInt, Rat.divInt_eq_div]; norm_num

theorem r035_eq : r035 = 0.35 := by rw [r035, Rat.mk'_eq_divInt, Rat.divInt_eq_div]; norm_num

theorem r04_eq : r04 = 0.4 := by rw [r04, Rat.mk'_eq_divInt, Rat.divInt_eq_div]; norm_num

theorem r05_eq : r05 = 0.5 := by rw [r05, Rat.mk'_eq_divInt, Rat.divInt_eq_div]; norm_num

theorem r06_eq : r06 = 0.6 := by rw [r06, Rat.mk'_eq_divInt, Rat.divInt_eq_div]; norm_num

theorem r07_eq : r07 = 0.7 := by rw [r07, Rat.mk'_eq_divInt, Rat.divInt_eq_div]; norm_num

theorem r075_eq : r075 = 0.75 := by rw [r075, Rat.mk'_eq_divInt, Rat.divInt_eq_div]; norm_num

theorem r09_eq : r09 = 0.9 := by rw [r09, Rat.mk'_eq_divInt, Rat.divInt_eq_div]; norm_num

/-- C5: `_validateSourceAccount` performs its checks in the spec's order with
the first failure winning (its error is exactly the first failing check of
the spec's list, for every account state, amount and daily total), and the
two quantitative scenarios hold: with `dailyLimit = 1000` and 900 of
completed transactions today a request of 150 is rejected by the daily-limit
check while 90 passes; a credit account with `creditLimit = 500` and
`balance = -100` passes a withdrawal of 350 and is rejected at 450 by the
credit-limit check. -/
theorem validateSourceAccount_first_failure_wins :
    (∀ (acct : Option Account) (amount dailyTotal : Int),
       errOf (validateSourceAccount acct amount dailyTotal) =
         specSourceFirstFailure acct amount dailyTotal)
    ∧ validateSourceAccount (some dailyAcct) 150 900 = .error .dailyLimit
    ∧ validateSourceAccount (some dailyAcct) 90 900 = .ok dailyAcct
    ∧ validateSourceAccount (some creditAcct) 350 0 = .ok creditAcct
    ∧ validateSourceAccount (some creditAcct) 450 0 = .error .creditLimitExceeded := by
  refine ⟨?_, by decide, by decide, by decide, by decide⟩
  rintro (_ | a) amount dailyTotal
  · rfl
  · by_cases hact : a.isActive = true
    · by_cases hfr : a.isFrozen = true
      · simp [validateSourceAccount, specSourceFirstFailure, errOf, hact, hfr]
      · by_cases hty : a.accountType = AccType.credit
        · by_cases hcl : a.balance - amount ≥ -a.creditLimit
          · by_cases hp : amount ≤ a.perTransaction
            · by_cases hd : dailyTotal + amount ≤ a.daily
              · simp [validateSourceAccount, specSourceFirstFailure, errOf,
                  hact, hfr, hty, hcl, hp, hd, not_lt.mpr]
              · simp [validateSourceAccount, specSourceFirstFailure, errOf,
                  hact, hfr, hty, hcl, hp, hd, not_lt.mpr, lt_of_not_ge hd]
            · simp [validateSourceAccount, specSourceFirstFailure, errOf,
                hact, hfr, hty, hcl, hp, not_lt.mpr, lt_of_not_ge hp]
          · simp [validateSourceAccount, specSourceFirstFailure, errOf,
              hact, hfr, hty, hcl, lt_of_not_ge hcl]
        · by_cases hin : a.availableBalance ≥ amount
          · by_cases hp : amount ≤ a.perTransaction
            · by_cases hd : dailyTotal + amount ≤ a.daily
              · simp [validateSourceAccount, specSourceFirstFailure, errOf,
                  hact, hfr, hty, hin, hp, hd, not_lt.mpr]
              · simp [validateSourceAccount, specSourceFirstFailure, errOf,
                  hact, hfr, hty, hin, hp, hd, not_lt.mpr, lt_of_not_ge hd]
            · simp [validateSourceAccount, specSourceFirstFailure, errOf,
                hact, hfr, hty, hin, hp, not_lt.mpr, lt_of_not_ge hp]
          · simp [validateSourceAccount, specSourceFirstFailure, errOf,
              hact, hfr, hty, hin, lt_of_not_ge hin]
    · simp [validateSourceAccount, specSourceFirstFailure, errOf, hact]

/-- C1: the claim fails on the code.  Evaluating `processTransaction` on a
withdrawal of 100 from an account with balance 1000:
* at fraud score 0 (≤ threshold 0.75) the call returns `completed`, but the
  source balance ends at 800, not 900 — the ledger mutation is applied twice
  (once explicitly in the service, once more by the `post('save')` cascade of
  `transactionModel.js`), and a pending reservation of 100 is left behind:
  not "exactly one balance change matching the transaction type";
* at fraud score 0.9 (> 0.75) the call returns `pending`, but
  `pendingTransactions` ends at 300 and `availableBalance` at 700 — balance
  fields of the account are mutated three times (initial save, the save
  inside `createFraudCase`, and the final save), not "no account balance
  field is mutated". -/
theorem processTransaction_double_settlement :
    (processTransaction demoWithdrawal 0 r075 0 7 demoMap).result =
      .ok ({ id := 7, sourceAccountId := some 1, destinationAccountId := none,
             amount := 100, transactionType := .withdrawal, status := .completed,
             statusHistory := [.pending, .completed], fraudScore := 0,
             fraudReviewed := false, relatedTransactions := [] }, .completed)
    ∧ (processTransaction demoWithdrawal 0 r075 0 7 demoMap).accounts =
        [(1, { demoChecking with
               balance := 800, availableBalance := 700, pendingTransactions := 100 })]
    ∧ (800 : Int) ≠ demoChecking.balance - demoWithdrawal.amount
    ∧ ((processTransaction demoWithdrawal r09 r075 0 7 demoMap).result.toOption.map
        (·.2)) = some .pending
    ∧ (processTransaction demoWithdrawal r09 r075 0 7 demoMap).accounts =
        [(1, { demoChecking with availableBalance := 700, pendingTransactions := 300 })]
    ∧ [(1, { demoChecking with availableBalance := 700, pendingTransactions := 300 })]
        ≠ demoMap := by
  decide

/-- C2: the claim fails on the code.  Reversing the completed transfer of 100
from X to Y does create one refund-type transaction of 100 from Y to X with
bidirectional `relatedTransactions` links, and sets the original to
`reversed` — but the new transaction is saved with the schema-default status
`pending` (the code never sets it to `completed`), so the Balance Ledger is
invoked with `pending` (a reservation on Y) and `reversed` (a release on X),
not with `completed`: both balances are unchanged (X stays 900, Y stays 600,
instead of moving 100 back), and the net balance effect of original plus
reversal is the original's effect, not zero. -/
theorem createReversal_refund_stays_pending :
    (createReversal reversalDB 10 11).1 =
      .ok { id := 11, sourceAccountId := some 2, destinationAccountId := some 1,
            amount := 100, transactionType := .refund, status := .pending,
            statusHistory := [.pending], fraudScore := 0, fraudReviewed := false,
            relatedTransactions := [10] }
    ∧ TxStatus.pending ≠ TxStatus.completed
    ∧ (((createReversal reversalDB 10 11).2.txs.find? (fun p => p.1 == 10)).map
        (fun p => (p.2.status, p.2.relatedTransactions))) = some (.reversed, [11])
    ∧ (createReversal reversalDB 10 11).2.accounts =
        [(1, { xAcct with pendingTransactions := -100, availableBalance := 1000 }),
         (2, { yAcct with pendingTransactions := 100, availableBalance := 500 })]
    ∧ ((findAcc (createReversal reversalDB 10 11).2.accounts 1).map (·.balance) =
        some 900 ∧ (900 : Int) ≠ 1000)
    ∧ ((findAcc (createReversal reversalDB 10 11).2.accounts 2).map (·.balance) =
        some 600 ∧ (600 : Int) ≠ 500) := by
  decide

/-- C3: the claim fails on the code.  Starting from the (reachable) state
`c3db1`, a withdrawal of 1030 passes validation (availableBalance 1060 ≥
1030), the pending record is saved — whose `post('save')` cascade commits
`pendingTransactions := 970` through `updateBalances`' own session — and then
the explicit completed mutation fails its balance validator (1000 − 1030 <
0).  The outer unit of work aborts and discards the transaction record, yet
the committed pending reservation remains durably visible: the call returns
an error while the account state differs from the pre-call state, i.e. a
balance-field change without its transaction record is observable. -/
theorem processTransaction_partial_state_observable :
    c3out.result = .error "Invalid balance for account type"
    ∧ findAcc c3db1.accounts 1 =
        some { c3X with pendingTransactions := -60, availableBalance := 1060 }
    ∧ findAcc c3out.accounts 1 =
        some { c3X with pendingTransactions := 970, availableBalance := 30 }
    ∧ c3out.accounts ≠ c3db1.accounts := by
  decide

/-- C4: the claim fails on the code.  Resolving the open case as
`resolved-fraud` does *not* stamp `resolutionDate` (the guard compares the
already-assigned status with the patch, so it is always false and the date is
never set — contradicting the code's own comment "If status is changing to
resolved or closed, add resolution date"), and applying the same terminal
resolution a second time *does* duplicate the automatic account-freeze
action (a second `account-freeze` entry is pushed). -/
theorem updateFraudCase_resolution_divergence :
    (updateFraudCase (some .resolvedFraud) 1111 openCase demoMap).1 =
      { openCase with status := .resolvedFraud, actions := [.accountFreeze] }
    ∧ (updateFraudCase (some .resolvedFraud) 1111 openCase demoMap).1.resolutionDate = none
    ∧ (updateFraudCase (some .resolvedFraud) 2222
        (updateFraudCase (some .resolvedFraud) 1111 openCase demoMap).1
        (updateFraudCase (some .resolvedFraud) 1111 openCase demoMap).2).1.actions =
        [.accountFreeze, .accountFreeze]
    ∧ (updateFraudCase (some .resolvedFraud) 2222
        (updateFraudCase (some .resolvedFraud) 1111 openCase demoMap).1
        (updateFraudCase (some .resolvedFraud) 1111 openCase demoMap).2).1.resolutionDate
        = none := by
  decide

/-- C6: whenever any of the awaited steps of `analyzeTransaction` raises an
exception, the function returns (does not rethrow) a result whose score is
the fixed fallback 0.5, built by its `catch` handler — so a scoring failure
never aborts the transaction and no scoring error reaches the caller. -/
theorem analyzeTransaction_fallback_on_error :
    ∀ (basic : Except String BasicResult) (ml : Except String ℚ)
      (cacheSet : Except String Unit) (threshold : ℚ),
      ((∃ e, basic = .error e) ∨ (∃ e, ml = .error e) ∨ (∃ e, cacheSet = .error e)) →
      (analyzeTransaction basic ml cacheSet threshold).score = r05
      ∧ (analyzeTransaction basic ml cacheSet threshold).isFallback = true := by
  rintro basic ml cacheSet threshold h
  rcases basic with e | b
  · simp [analyzeTransaction, AnalysisResult.score, AnalysisResult.isFallback]
  · rcases ml with e | m
    · simp [analyzeTransaction, AnalysisResult.score, AnalysisResult.isFallback]
    · rcases cacheSet with e | u
      · simp [analyzeTransaction, AnalysisResult.score, AnalysisResult.isFallback]
      · rcases h with ⟨e, he⟩ | ⟨e, he⟩ | ⟨e, he⟩ <;> exact absurd he (by simp)

theorem analyzeTransaction_fallback_on_error_witness :
    (analyzeTransaction (.error "redis connection refused") (.ok 0) (.ok ()) r075).score = r05
    ∧ (analyzeTransaction (.error "redis connection refused") (.ok 0) (.ok ())
        r075).isFallback = true :=
  analyzeTransaction_fallback_on_error (.error "redis connection refused") (.ok 0) (.ok ())
    r075 (Or.inl ⟨"redis connection refused", rfl⟩)

/-- C7 counterexample: with the scoring provider *enabled* and its call
failing (erroring or timing out), `_getMLPrediction` returns 0.2, not 0 —
the claim as stated is false at this input. -/
theorem getMLPrediction_error_not_zero :
    getMLPrediction (some "true") (.error "prediction timeout") = r02 ∧ r02 ≠ 0 := by
  constructor
  · decide
  · decide

/-- C7 amended: when the provider is *disabled* (`FRAUD_DETECTION_ENABLED`
absent or not "true" case-insensitively) the mlScore entering the combined
score is 0; when it is enabled and the call errors or times out the mlScore
is the fallback 0.2; in every case `_getMLPrediction` returns a value rather
than raising, so the transaction is never failed because of the provider. -/
theorem getMLPrediction_degraded_behaviour :
    (∀ p, getMLPrediction none p = 0)
    ∧ (∀ (s : String) (p : Except String ℚ),
        jsToLowerCase s ≠ "true" → getMLPrediction (some s) p = 0)
    ∧ (∀ e, getMLPrediction (some "true") (.error e) = r02)
    ∧ (∀ q, getMLPrediction (some "true") (.ok q) = q) := by
  have htrue : jsToLowerCase "true" = "true" := by decide
  refine ⟨fun p => rfl, ?_, fun e => ?_, fun q => ?_⟩
  · intro s p h
    simp [getMLPrediction, h]
  · simp [getMLPrediction, htrue]
  · simp [getMLPrediction, htrue]

theorem getMLPrediction_degraded_behaviour_witness :
    getMLPrediction (some "FALSE") (.ok 1) = 0 :=
  getMLPrediction_degraded_behaviour.2.1 "FALSE" (.ok 1) (by decide)

/-- C8 counterexample: with the failures (weight 0.25) and pattern (weight
0.35) indicators both active, the highest-weighted active indicator is the
suspicious pattern, but `createFraudCase` assigns `multiple-failures` — its
`if`/`else if` chain tests the fixed order unconditionally, so the claim
that the weights decide and the order only breaks ties is false at this
input. -/
theorem determineDetectionType_not_highest_weighted :
    determineDetectionType (some tieIndicators) = .multipleFailures
    ∧ specHighestWeighted (some tieIndicators) = .suspiciousPattern
    ∧ indicatorWeight .suspiciousPattern > indicatorWeight .multipleFailures
    ∧ determineDetectionType (some tieIndicators) ≠
        specHighestWeighted (some tieIndicators) := by
  decide

/-- C8 amended: the case's `detectionType` is the *first* active indicator in
the fixed order amount > location > time > failures > pattern, regardless of
weight, with `ml-detection` when no rule indicator is active (or no
indicators object is present). -/
theorem determineDetectionType_first_active :
    ∀ ind, determineDetectionType ind = specFirstActive ind := by
  rintro (_ | ⟨a, l, t, f, p⟩)
  · rfl
  · cases a <;> cases l <;> cases t <;> cases f <;> cases p <;> rfl

/-- C10: in the wallet operations `deposit`, `withdraw` and `transfer`, the
balance mutation precedes fraud scoring and is committed regardless of the
fraud result: for every request whose computed score exceeds 0.7 the saved
transaction has status `flagged`, yet the committed balances are exactly
those of the non-flagged case (they do not depend on the score), and the
call still reports success. -/
theorem wallet_flagged_still_commits :
    ∀ (bal rbal amt : Int) (score : ℚ), 0 < amt → r07 < score →
      (walletDeposit bal amt score =
          .ok (bal + amt,
            { wtype := .deposit, amount := amt, status := .flagged, fraudScore := score })
        ∧ (walletDeposit bal amt score).map Prod.fst =
            (walletDeposit bal amt 0).map Prod.fst)
      ∧ (amt ≤ bal →
          walletWithdraw bal amt score =
            .ok (bal - amt,
              { wtype := .withdraw, amount := amt, status := .flagged, fraudScore := score })
          ∧ (walletWithdraw bal amt score).map Prod.fst =
              (walletWithdraw bal amt 0).map Prod.fst)
      ∧ (amt ≤ bal →
          walletTransfer bal (some rbal) amt score =
            .ok (bal - amt, rbal + amt,
              { wtype := .transfer, amount := amt, status := .flagged, fraudScore := score })
          ∧ (walletTransfer bal (some rbal) amt score).map (fun r => (r.1, r.2.1)) =
              (walletTransfer bal (some rbal) amt 0).map (fun r => (r.1, r.2.1))) := by
  intro bal rbal amt score hamt hscore
  have h1 : ¬ amt ≤ 0 := by omega
  have h0 : ¬ ((0 : ℚ) > r07) := by decide
  refine ⟨⟨?_, ?_⟩, fun hb => ?_, fun hb => ?_⟩
  · simp [walletDeposit, h1, hscore]
  · simp [walletDeposit, Except.map, h1, h0, hscore]
  · have h2 : ¬ bal < amt := not_lt.mpr hb
    constructor
    · simp [walletWithdraw, h1, h2, hscore]
    · simp [walletWithdraw, Except.map, h1, h2, h0, hscore]
  · have h2 : ¬ bal < amt := not_lt.mpr hb
    constructor
    · simp [walletTransfer, h1, h2, hscore]
    · simp [walletTransfer, Except.map, h1, h2, h0, hscore]

theorem wallet_flagged_still_commits_witness :
    walletDeposit 100 30 r09 =
      .ok (130, { wtype := .deposit, amount := 30, status := .flagged, fraudScore := r09 }) :=
  ((wallet_flagged_still_commits 100 50 30 r09 (by decide) (by decide)).1).1

/-- `countCases` distributes over append. -/
theorem countCases_append (cs ds : List CaseRec) (tid : Nat) :
    countCases (cs ++ ds) tid = countCases cs tid + countCases ds tid := by
  simp [countCases, List.filter_append]

/-- One fresh `open` case counts once for its own transaction. -/
theorem countCases_singleton_self (tid : Nat) :
    countCases [{ transactionId := tid, status := CaseStatus.statusOpen }] tid = 1 := by
  simp [countCases]

/-- One fresh `open` case does not count for another transaction. -/
theorem countCases_singleton_other {tid tid' : Nat} (h : tid' ≠ tid) :
    countCases [{ transactionId := tid, status := CaseStatus.statusOpen }] tid' = 0 := by
  simp [countCases, Ne.symm h]

/-- Lookup through an appended suffix. -/
theorem lookupT_append (xs ys : List (Nat × TxnRec)) (tid : Nat) :
    lookupT (xs ++ ys) tid =
      match lookupT xs tid with
      | some t => some t
      | none => lookupT ys tid := by
  induction xs with
  | nil => rfl
  | cons p rest ih =>
    obtain ⟨i, t⟩ := p
    by_cases h : i = tid
    · simp [lookupT, h]
    · simp [lookupT, h, ih]

/-- `markReviewed` sets the flag on the looked-up transaction. -/
theorem lookupT_markReviewed_self (xs : List (Nat × TxnRec)) (tid : Nat) :
    lookupT (markReviewed xs tid) tid =
      (lookupT xs tid).map (fun t => { t with fraudReviewed := true }) := by
  induction xs with
  | nil => rfl
  | cons p rest ih =>
    obtain ⟨i, t⟩ := p
    by_cases h : i = tid
    · simp [lookupT, markReviewed, h]
    · simp [lookupT, markReviewed, h, ih]

/-- `markReviewed` leaves other transactions alone. -/
theorem lookupT_markReviewed_other (xs : List (Nat × TxnRec)) {tid tid' : Nat}
    (h : tid' ≠ tid) :
    lookupT (markReviewed xs tid) tid' = lookupT xs tid' := by
  induction xs with
  | nil => rfl
  | cons p rest ih =>
    obtain ⟨i, t⟩ := p
    by_cases h1 : i = tid
    · subst h1
      simp [markReviewed, lookupT, Ne.symm h, ih]
    · by_cases h2 : i = tid'
      · simp [markReviewed, lookupT, h1, h2, h]
      · simp [markReviewed, lookupT, h1, h2, ih]

/-- Reopening a case changes no per-transaction counts. -/
theorem countCases_setInvestigatingFirst (cs : List CaseRec) (tid tid' : Nat) :
    countCases (setInvestigatingFirst cs tid) tid' = countCases cs tid' := by
  induction cs with
  | nil => rfl
  | cons c rest ih =>
    simp only [countCases] at ih ⊢
    by_cases h : c.transactionId = tid
    · simp only [setInvestigatingFirst, if_pos h]
      rw [List.filter_cons, List.filter_cons]
      have hhead :
          (({ c with status := CaseStatus.investigating } : CaseRec).transactionId == tid')
            = (c.transactionId == tid') := rfl
      rw [hhead]
      split <;> simp
    · simp only [setInvestigatingFirst, if_neg h]
      rw [List.filter_cons, List.filter_cons]
      split <;> simp [ih]

/-- `findOne` returning nothing means the count is zero. -/
theorem countCases_eq_zero_of_none {cs : List CaseRec} {tid : Nat}
    (h : cs.find? (fun c => c.transactionId == tid) = none) :
    countCases cs tid = 0 := by
  rw [List.find?_eq_none] at h
  simp only [countCases, List.length_eq_zero, List.filter_eq_nil_iff]
  exact h

/-- Open/investigating cases are a subset of all cases. -/
theorem countOpenCases_le_countCases (cs : List CaseRec) (tid : Nat) :
    countOpenCases cs tid ≤ countCases cs tid := by
  induction cs with
  | nil => exact Nat.le_refl 0
  | cons c rest ih =>
    simp only [countOpenCases, countCases, List.filter_cons] at ih ⊢
    by_cases h1 : (c.transactionId == tid)
    · by_cases h2 : (c.status == CaseStatus.statusOpen || c.status == CaseStatus.investigating)
      · simp [h1, h2]; omega
      · simp [h1, h2]; omega
    · simp [h1]; exact ih

/-- A case creation whose `fraudReviewed` write succeeds updates both
collections. -/
theorem doCreateFraudCase_true (tid : Nat) (s : FState) :
    doCreateFraudCase tid true s =
      { txns := markReviewed s.txns tid,
        cases := s.cases ++ [{ transactionId := tid, status := .statusOpen }] } := rfl

/-- Every operation whose `fraudReviewed` write succeeds preserves the
inductive invariant. -/
theorem stepOp_preserves_good {s : FState} (hs : GoodState s) (op : FOp)
    (hok : opWritesSucceed op = true) : GoodState (stepOp s op) := by
  cases op with
  | submitLowRisk tid =>
    by_cases hnew : (lookupT s.txns tid).isSome
    · simpa [stepOp, hnew] using hs
    · intro tid'
      simp only [stepOp, hnew, Bool.false_eq_true, if_false]
      refine ⟨(hs tid').1, fun hge => ?_⟩
      obtain ⟨t, ht, hrev⟩ := (hs tid').2 hge
      refine ⟨t, ?_, hrev⟩
      rw [lookupT_append, ht]
  | submitHighRisk tid =>
    by_cases hnew : (lookupT s.txns tid).isSome
    · simpa [stepOp, hnew] using hs
    · have hlook : lookupT s.txns tid = none := by
        cases h : lookupT s.txns tid
        · rfl
        · simp [h] at hnew
      have hcount0 : countCases s.cases tid = 0 := by
        by_contra hne
        obtain ⟨t, ht, _⟩ := (hs tid).2 (by omega)
        rw [hlook] at ht
        exact Option.noConfusion ht
      intro tid'
      simp only [stepOp, hnew, Bool.false_eq_true, if_false, doCreateFraudCase_true]
      constructor
      · rw [countCases_append]
        by_cases h' : tid' = tid
        · subst h'
          rw [hcount0, countCases_singleton_self]
        · have := (hs tid').1
          rw [countCases_singleton_other h']
          omega
      · by_cases h' : tid' = tid
        · subst h'
          intro _
          refine ⟨{ fraudReviewed := true }, ?_, rfl⟩
          rw [lookupT_markReviewed_self, lookupT_append, hlook]
          simp [lookupT]
        · rw [countCases_append, countCases_singleton_other h']
          intro hge
          obtain ⟨t, ht, hrev⟩ := (hs tid').2 (by omega)
          refine ⟨t, ?_, hrev⟩
          rw [lookupT_markReviewed_other _ h', lookupT_append, ht]
  | dailyScanStep tid high ok =>
    have hok1 : ok = true := by simpa [opWritesSucceed] using hok
    subst hok1
    cases hl : lookupT s.txns tid with
    | none => simpa [stepOp, hl] using hs
    | some t =>
      by_cases hrev : t.fraudReviewed
      · simpa [stepOp, hl, hrev] using hs
      · cases high with
        | false => simpa [stepOp, hl, hrev] using hs
        | true =>
          have hcount0 : countCases s.cases tid = 0 := by
            by_contra hne
            obtain ⟨t', ht', hrev'⟩ := (hs tid).2 (by omega)
            rw [hl] at ht'
            cases ht'
            exact hrev hrev'
          intro tid'
          simp only [stepOp, hl, hrev, Bool.false_eq_true, if_false, if_true,
            doCreateFraudCase_true]
          constructor
          · rw [countCases_append]
            by_cases h' : tid' = tid
            · subst h'
              rw [hcount0, countCases_singleton_self]
            · have := (hs tid').1
              rw [countCases_singleton_other h']
              omega
          · by_cases h' : tid' = tid
            · subst h'
              intro _
              refine ⟨{ fraudReviewed := true }, ?_, rfl⟩
              rw [lookupT_markReviewed_self, hl]
              rfl
            · rw [countCases_append, countCases_singleton_other h']
              intro hge
              obtain ⟨t', ht', hrev'⟩ := (hs tid').2 (by omega)
              refine ⟨t', ?_, hrev'⟩
              rw [lookupT_markReviewed_other _ h', ht']
  | reportFraud tid ok =>
    have hok1 : ok = true := by simpa [opWritesSucceed] using hok
    subst hok1
    cases hl : lookupT s.txns tid with
    | none => simpa [stepOp, hl] using hs
    | some t =>
      cases hf : s.cases.find? (fun c => c.transactionId == tid) with
      | some c =>
        intro tid'
        simp only [stepOp, hl, hf]
        rw [countCases_setInvestigatingFirst]
        exact hs tid'
      | none =>
        have hcount0 : countCases s.cases tid = 0 := countCases_eq_zero_of_none hf
        intro tid'
        simp only [stepOp, hl, hf, doCreateFraudCase_true]
        constructor
        · rw [countCases_append]
          by_cases h' : tid' = tid
          · subst h'
            rw [hcount0, countCases_singleton_self]
          · have := (hs tid').1
            rw [countCases_singleton_other h']
            omega
        · by_cases h' : tid' = tid
          · subst h'
            intro _
            refine ⟨{ fraudReviewed := true }, ?_, rfl⟩
            rw [lookupT_markReviewed_self, hl]
            rfl
          · rw [countCases_append, countCases_singleton_other h']
            intro hge
            obtain ⟨t', ht', hrev'⟩ := (hs tid').2 (by omega)
            refine ⟨t', ?_, hrev'⟩
            rw [lookupT_markReviewed_other _ h', ht']

/-- The empty initial state satisfies the invariant. -/
theorem goodState_init : GoodState { txns := [], cases := [] } := by
  intro tid
  refine ⟨by simp [countCases], fun h => ?_⟩
  simp [countCases] at h

/-- The invariant holds along every run whose `fraudReviewed` writes all
succeed. -/
theorem foldl_stepOp_good :
    ∀ (ops : List FOp) (s : FState), (∀ op ∈ ops, opWritesSucceed op = true) →
      GoodState s → GoodState (ops.foldl stepOp s)
  | [], _, _, hs => hs
  | op :: ops, _, hops, hs =>
    foldl_stepOp_good ops _ (fun o ho => hops o (List.mem_cons_of_mem _ ho))
      (stepOp_preserves_good hs op (hops op (List.mem_cons_self _ _)))

/-- C9 counterexample: the invariant fails on the code.  A normally
completed transaction is scanned as high-risk; `createFraudCase` persists
the `open` case but its `transaction.save()` (which should set
`fraudReviewed`) fails and the `catch` swallows the error, so the
transaction remains `fraudReviewed: false` with one open case; a second scan
step then re-selects it, and `createFraudCase` — which never checks for an
existing case — creates a *second* open case for the same transaction. -/
theorem daily_scan_creates_second_open_case :
    countOpenCases (runOps [FOp.submitLowRisk 5,
      FOp.dailyScanStep 5 true false]).cases 5 = 1
    ∧ countOpenCases (runOps c9DuplicateOps).cases 5 = 2
    ∧ ¬ countOpenCases (runOps c9DuplicateOps).cases 5 ≤ 1 := by
  decide

/-- C9 amended: in every state reachable from the empty initial state by
operations — submissions, high-risk escalations, daily-scan steps, user
fraud reports — *whose `fraudReviewed` writes all succeed*, every
transaction has at most one open/investigating fraud case.  (In fact at most
one case of any status: successful escalation marks the transaction
`fraudReviewed`, the daily scan only selects unreviewed transactions, and a
user report updates the case found by `findOne` instead of creating a
second.)  The success proviso is necessary: the counterexample above shows a
swallowed `fraudReviewed`-write failure lets the daily scan duplicate the
open case. -/
theorem at_most_one_open_case_when_creation_succeeds :
    ∀ (ops : List FOp), (∀ op ∈ ops, opWritesSucceed op = true) →
      ∀ tid : Nat, countOpenCases (runOps ops).cases tid ≤ 1 := by
  intro ops hops tid
  have hg : GoodState (runOps ops) := foldl_stepOp_good ops _ hops goodState_init
  exact le_trans (countOpenCases_le_countCases _ _) (hg tid).1

theorem at_most_one_open_case_when_creation_succeeds_witness :
    countOpenCases (runOps [FOp.submitLowRisk 1, FOp.dailyScanStep 1 true true,
      FOp.reportFraud 1 true, FOp.submitHighRisk 2]).cases 1 ≤ 1 :=
  at_most_one_open_case_when_creation_succeeds
    [FOp.submitLowRisk 1, FOp.dailyScanStep 1 true true,
     FOp.reportFraud 1 true, FOp.submitHighRisk 2] (by decide) 1

end SentinelPay
